import Mathlib

/-!
# Hyper-V ISO builder: step pipeline

A shallow embedding of the Go sources

* `builder/hyperv/common/step_wait_for_power_off.go`
* `builder/hyperv/iso/step_create_vm.go`
* `builder/hyperv/iso/step_mount_floppydrive.go`
* `builder/hyperv/iso/builder.go`

Go code that mutates the state bag, talks to the driver, the UI, the clock and the
file system is embedded in the monad `Go`: a function from a `Machine` (state bag plus
the trace of external events so far) to a result and the machine afterwards.  A Go
panic (a failed type assertion) is the result `Res.panic`; the unbounded `for` loop of
the wait step runs on fuel and `Res.diverge` is the result of running out of it.
-/

namespace Hyperv

/-! ## Data model -/

/-- The two values of `multistep.StepAction` the steps return. -/
inductive StepAction where
  | ActionContinue
  | ActionHalt
  deriving DecidableEq, Repr

/-- The fields of `config` (builder.go) that the embedded code reads or writes.
`DiskSize` and `RamSizeMB` are Go `uint`. -/
structure config where
  OutputDir : String
  PackerDebug : Bool
  DiskName : String
  DiskSize : Nat
  DiskType : String
  RamSizeMB : Nat
  VMName : String
  SwitchName : String
  deriving DecidableEq, Repr

/-- The dynamically typed values (`interface{}`) that are stored in the state bag. -/
inductive Value where
  | string (s : String)
  | error (msg : String)
  | bool (b : Bool)
  | ui
  | driver
  | hook
  | config (c : config)
  deriving DecidableEq, Repr

/-- The state bag `multistep.BasicStateBag`: a string-keyed store. -/
structure StateBag where
  entries : List (String × Value)
  deriving DecidableEq, Repr

/-- The method `GetOk`: the value stored under the key, if the key is present. -/
def StateBag.GetOk (s : StateBag) (key : String) : Option Value :=
  s.entries.lookup key

/-- The method `Put`: store a value under the key, replacing what was there. -/
def StateBag.Put (s : StateBag) (key : String) (v : Value) : StateBag :=
  ⟨(key, v) :: s.entries.filter (fun e => e.1 != key)⟩

/-- The external events a step can cause, in the order they happen. -/
inductive Event where
  | say (msg : String)
  | uiError (msg : String)
  | log (msg : String)
  | sleep (seconds : Nat)
  | manage (cmd : String)
  | manageOutput (cmd : String)
  | tempDir
  | create (path : String)
  | fileOpen (path : String)
  | copy (dst src : String)
  | close (path : String)
  | remove (path : String)
  deriving DecidableEq, Repr

/-- The stubbed collaborators.  The driver answers by call number (counted from 0 per
method) and command text; an `Option String` answer is a Go `error` (`none` is `nil`). -/
structure Env where
  HypervManage : Nat → String → Option String
  HypervManageOutput : Nat → String → Except String String
  TempDir : Except String String
  Join : String → String → String
  Create : String → Option String
  Open : String → Option String
  Copy : String → String → Option String
  Remove : String → Option String

/-- The state bag and the events so far. -/
structure Machine where
  state : StateBag
  trace : List Event
  deriving DecidableEq, Repr

/-- The result of running Go code: it returns, it panics, or the model ran out of fuel. -/
inductive Res (α : Type) where
  | ret (a : α)
  | panic (msg : String)
  | diverge
  deriving DecidableEq, Repr

/-- Go code with effects on the machine. -/
def Go (α : Type) : Type := Machine → Res α × Machine

/-- Return a value without any effect. -/
def Go.pure {α : Type} (a : α) : Go α := fun m => (Res.ret a, m)

/-- Sequencing: a panic or fuel exhaustion stops the execution. -/
def Go.bind {α β : Type} (x : Go α) (f : α → Go β) : Go β := fun m =>
  match x m with
  | (Res.ret a, m1) => f a m1
  | (Res.panic msg, m1) => (Res.panic msg, m1)
  | (Res.diverge, m1) => (Res.diverge, m1)

instance : Monad Go where
  pure := Go.pure
  bind := Go.bind

/-- A Go panic. -/
def Go.panic {α : Type} (msg : String) : Go α := fun m => (Res.panic msg, m)

/-- The model ran out of fuel. -/
def Go.diverge {α : Type} : Go α := fun m => (Res.diverge, m)

/-- Append an event to the trace. -/
def emit (e : Event) : Go Unit := fun m => (Res.ret (), { m with trace := m.trace ++ [e] })

/-- The call `state.GetOk(key)`. -/
def GetOk (key : String) : Go (Option Value) := fun m => (Res.ret (m.state.GetOk key), m)

/-- The call `state.Put(key, v)`. -/
def Put (key : String) (v : Value) : Go Unit := fun m =>
  (Res.ret (), { m with state := m.state.Put key v })

/-- The expression `state.Get(key).(string)`. -/
def GetString (key : String) : Go String := fun m =>
  match m.state.GetOk key with
  | some (Value.string s) => (Res.ret s, m)
  | _ => (Res.panic "interface conversion", m)

/-- The expression `state.Get(key).(packer.Ui)`. -/
def GetUi (key : String) : Go Unit := fun m =>
  match m.state.GetOk key with
  | some Value.ui => (Res.ret (), m)
  | _ => (Res.panic "interface conversion", m)

/-- The expression `state.Get(key).(Driver)`. -/
def GetDriver (key : String) : Go Unit := fun m =>
  match m.state.GetOk key with
  | some Value.driver => (Res.ret (), m)
  | _ => (Res.panic "interface conversion", m)

/-- The expression `state.Get(key).(*config)`. -/
def GetConfig (key : String) : Go config := fun m =>
  match m.state.GetOk key with
  | some (Value.config c) => (Res.ret c, m)
  | _ => (Res.panic "interface conversion", m)

/-- The calls of `HypervManage` in a trace. -/
def manageCalls (t : List Event) : List String :=
  t.filterMap (fun e => match e with | Event.manage c => some c | _ => none)

/-- The calls of `HypervManageOutput` in a trace. -/
def manageOutputCalls (t : List Event) : List String :=
  t.filterMap (fun e => match e with | Event.manageOutput c => some c | _ => none)

/-- The messages given to `ui.Error` in a trace. -/
def uiErrors (t : List Event) : List String :=
  t.filterMap (fun e => match e with | Event.uiError c => some c | _ => none)

namespace Ui

/-- The call `ui.Say(msg)`. -/
def Say (msg : String) : Go Unit := emit (Event.say msg)

/-- The call `ui.Error(msg)`. -/
def Error (msg : String) : Go Unit := emit (Event.uiError msg)

end Ui

namespace Driver

/-- The call `driver.HypervManage(cmd)`; the result is the Go error. -/
def HypervManage (env : Env) (cmd : String) : Go (Option String) := fun m =>
  (Res.ret (env.HypervManage (manageCalls m.trace).length cmd),
    { m with trace := m.trace ++ [Event.manage cmd] })

/-- The call `driver.HypervManageOutput(cmd)`. -/
def HypervManageOutput (env : Env) (cmd : String) : Go (Except String String) := fun m =>
  (Res.ret (env.HypervManageOutput (manageOutputCalls m.trace).length cmd),
    { m with trace := m.trace ++ [Event.manageOutput cmd] })

end Driver

/-- The call `time.Sleep(time.Second * seconds)`. -/
def Sleep (seconds : Nat) : Go Unit := emit (Event.sleep seconds)

/-- The call `log.Println(msg)`. -/
def Println (msg : String) : Go Unit := emit (Event.log msg)

/-! ## step_wait_for_power_off.go -/

/-- The constant `SleepSeconds`. -/
def SleepSeconds : Nat := 10

/-- The struct `StepWaitForPowerOff` has no field. -/
structure StepWaitForPowerOff where
  deriving DecidableEq, Repr

/-- The command whose output the wait step polls. -/
def StepWaitForPowerOff.blockBuffer (vmName : String) : String :=
  "(Get-VM -Name " ++ vmName ++ ").State -eq [Microsoft.HyperV.PowerShell.VMState]::Off"

/-- The `for` loop of `StepWaitForPowerOff.Run`, one iteration per unit of fuel. -/
def StepWaitForPowerOff.Run.loop (env : Env) (cmd : String) : Nat → Go StepAction
  | 0 => Go.diverge
  | fuel + 1 => do
    let r ← Driver.HypervManageOutput env cmd
    match r with
    | Except.error err => do
      let err := "Error checking VM's state: " ++ err
      Put "error" (Value.error err)
      Ui.Error err
      return StepAction.ActionHalt
    | Except.ok cmdOut =>
      if cmdOut = "True" then
        return StepAction.ActionContinue
      else do
        Sleep SleepSeconds
        StepWaitForPowerOff.Run.loop env cmd fuel

/-- The method `StepWaitForPowerOff.Run`; `fuel` bounds the iterations of its loop. -/
def StepWaitForPowerOff.Run (env : Env) (_s : StepWaitForPowerOff) (fuel : Nat) :
    Go StepAction := do
  GetUi "ui"
  GetDriver "driver"
  let vmName ← GetString "vmName"
  Ui.Say "Waiting for vm to be powered down..."
  Sleep 300
  StepWaitForPowerOff.Run.loop env (StepWaitForPowerOff.blockBuffer vmName) fuel

/-- The method `StepWaitForPowerOff.Cleanup`: the body is empty. -/
def StepWaitForPowerOff.Cleanup (_s : StepWaitForPowerOff) : Go Unit :=
  return ()

/-! ## step_create_vm.go -/

/-- The struct `StepCreateVM`; the empty string is the unset `vmName`. -/
structure StepCreateVM where
  vmName : String
  deriving DecidableEq, Repr

/-- Go `uint` arithmetic wraps at this modulus (64-bit hosts). -/
def uintModulus : Nat := 2 ^ 64

/-- The text that `StepCreateVM.Run` writes to its `blockBuffer`. -/
def StepCreateVM.Run.blockBuffer (vmName path : String) (ram diskSize : Nat)
    (switchName : String) : String :=
  "Invoke-Command -scriptblock \x7bNew-VM -Name '"
    ++ vmName
    ++ "' -Path '"
    ++ path
    ++ "' -MemoryStartupBytes "
    ++ (toString ram ++ "MB")
    ++ " -NewVHDPath '"
    ++ path
    ++ "/"
    ++ vmName
    ++ ".vhdx'"
    ++ " -NewVHDSizeBytes "
    ++ (toString diskSize ++ "GB")
    ++ " -SwitchName '"
    ++ switchName
    ++ "'\x7d"

/-- The method `StepCreateVM.Run`; the step is returned with the action because Go mutates it
through the pointer receiver. -/
def StepCreateVM.Run (env : Env) (s : StepCreateVM) : Go (StepAction × StepCreateVM) := do
  GetUi "ui"
  Ui.Say "Creating virtual machine..."
  let config ← GetConfig "config"
  GetDriver "driver"
  let path ← GetString "packerTempDir"
  let vmName := config.VMName
  let ram := config.RamSizeMB
  let diskSize := (config.DiskSize * 1024) % uintModulus
  let switchName := config.SwitchName
  let err ← Driver.HypervManage env
    (StepCreateVM.Run.blockBuffer vmName path ram diskSize switchName)
  match err with
  | some err => do
    let err := "Error creating virtual machine: " ++ err
    Put "error" (Value.error err)
    Ui.Error err
    return (StepAction.ActionHalt, s)
  | none => do
    let s := if s.vmName = "" then { s with vmName := vmName } else s
    Put "vmName" (Value.string s.vmName)
    return (StepAction.ActionContinue, s)

/-- The method `StepCreateVM.Cleanup`. -/
def StepCreateVM.Cleanup (env : Env) (s : StepCreateVM) : Go Unit := do
  if s.vmName = "" then
    return ()
  else do
    GetDriver "driver"
    GetUi "ui"
    Ui.Say "Unregistering and deleting virtual machine..."
    let err ← Driver.HypervManage env
      ("Invoke-Command -scriptblock \x7bRemove-VM –Name '" ++ s.vmName ++ "' -Force \x7d")
    match err with
    | some err => Ui.Error ("Error deleting virtual machine: " ++ err)
    | none => return ()

/-! ## step_mount_floppydrive.go -/

/-- The struct `StepMountFloppydrive`; the empty string is the unset `floppyPath`. -/
structure StepMountFloppydrive where
  floppyPath : String
  deriving DecidableEq, Repr

/-- The method `copyFloppy`: the pair `(string, error)` is an `Except`; the deferred `Close`
calls run at the return. -/
def StepMountFloppydrive.copyFloppy (env : Env) (path : String) :
    Go (Except String String) := do
  emit Event.tempDir
  match env.TempDir with
  | Except.error err => return Except.error err
  | Except.ok tempdir => do
    let floppyPath := env.Join tempdir "floppy.vfd"
    emit (Event.create floppyPath)
    match env.Create floppyPath with
    | some err => return Except.error err
    | none => do
      emit (Event.fileOpen path)
      match env.Open path with
      | some err => do
        emit (Event.close floppyPath)
        return Except.error err
      | none => do
        Println ("Copying floppy to temp location: " ++ floppyPath)
        emit (Event.copy floppyPath path)
        match env.Copy floppyPath path with
        | some err => do
          emit (Event.close path)
          emit (Event.close floppyPath)
          return Except.error err
        | none => do
          emit (Event.close path)
          emit (Event.close floppyPath)
          return Except.ok floppyPath

/-- The function `mountFloppyDrive`. -/
def mountFloppyDrive (env : Env) (vmName path : String) : Go (Option String) :=
  Driver.HypervManage env ("Set-VMFloppyDiskDrive -VMName " ++ vmName ++ " -Path " ++ path)

/-- The function `unmountFloppyDrive`: unmount by mounting `$null`. -/
def unmountFloppyDrive (env : Env) (vmName : String) : Go (Option String) :=
  mountFloppyDrive env vmName "$null"

/-- The type assertion `floppyPathRaw.(string)`. -/
def assertString (v : Value) : Go String :=
  match v with
  | Value.string s => return s
  | _ => Go.panic "interface conversion"

/-- The method `StepMountFloppydrive.Run`; the step is returned with the action. -/
def StepMountFloppydrive.Run (env : Env) (s : StepMountFloppydrive) :
    Go (StepAction × StepMountFloppydrive) := do
  let floppyPathRaw ← GetOk "floppy_path"
  match floppyPathRaw with
  | none => do
    Println "No floppy disk, not attaching."
    return (StepAction.ActionContinue, s)
  | some raw => do
    let floppyPath ← assertString raw
    let copied ← StepMountFloppydrive.copyFloppy env floppyPath
    match copied with
    | Except.error err => do
      Put "error" (Value.error ("Error preparing floppy: " ++ err))
      return (StepAction.ActionHalt, s)
    | Except.ok floppyPath => do
      GetUi "ui"
      Ui.Say "Mounting floppy drive..."
      let vmName ← GetString "vmName"
      GetDriver "driver"
      let err ← mountFloppyDrive env vmName floppyPath
      match err with
      | some err => do
        Put "error" (Value.error ("Error mounting floppy drive: " ++ err))
        return (StepAction.ActionHalt, s)
      | none =>
        return (StepAction.ActionContinue, { s with floppyPath := floppyPath })

/-- The call `os.Remove(path)`; the result is the Go error. -/
def Remove (env : Env) (path : String) : Go (Option String) := do
  emit (Event.remove path)
  return env.Remove path

/-- The method `StepMountFloppydrive.Cleanup`. -/
def StepMountFloppydrive.Cleanup (env : Env) (s : StepMountFloppydrive) : Go Unit := do
  if s.floppyPath = "" then
    return ()
  else do
    let vmName ← GetString "vmName"
    GetUi "ui"
    Ui.Say "Unmounting floppy drive (cleanup)..."
    GetDriver "driver"
    let err ← unmountFloppyDrive env vmName
    match err with
    | some err => Ui.Error ("Error unmounting floppy drive: " ++ err)
    | none => pure ()
    let err ← Remove env s.floppyPath
    match err with
    | some err => Ui.Error ("Error unmounting floppy drive: " ++ err)
    | none => pure ()

/-! ## builder.go -/

/-- The constant `DiskTypeFixed`. -/
def DiskTypeFixed : String := "Fixed"

/-- The constant `DiskTypeDynamic`. -/
def DiskTypeDynamic : String := "Dynamic"

/-- The key `multistep.StateCancelled` of the multistep library. -/
def StateCancelled : String := "cancelled"

/-- The key `multistep.StateHalted` of the multistep library. -/
def StateHalted : String := "halted"

/-- The struct `Builder`. -/
structure Builder where
  config : Hyperv.config
  deriving DecidableEq, Repr

/-- The disk-type check of `Builder.Prepare` (the `//DiskType` block): `errs` holds
the messages of the accumulated multi-error, `MultiErrorAppend` adds at the end. -/
def Builder.Prepare.DiskType (c : Hyperv.config) (errs : List String) :
    Hyperv.config × List String :=
  let c := if c.DiskType = "" then { c with DiskType := DiskTypeDynamic } else c
  let errs :=
    if c.DiskType ≠ DiskTypeDynamic ∨ c.DiskType ≠ DiskTypeFixed then
      errs ++ ["disk_type: " ++ c.DiskType ++ ", invalid disk type, must be "
        ++ DiskTypeDynamic ++ " or " ++ DiskTypeFixed]
    else errs
  (c, errs)

/-- What `Builder.Run` returns: an error, or the result of the call
`hypervcommon.NewArtifact(outputDir)`. -/
inductive RunResult where
  | failed (err : String)
  | NewArtifact (outputDir : String)
  deriving DecidableEq, Repr

/-- The end of `Builder.Run`, after `b.runner.Run(state)` has returned. -/
def Builder.Run.report (b : Builder) : Go RunResult := do
  match (← GetOk "error") with
  | some rawErr =>
    match rawErr with
    | Value.error err => return RunResult.failed err
    | _ => Go.panic "interface conversion"
  | none =>
    match (← GetOk StateCancelled) with
    | some _ => return RunResult.failed "Build was cancelled."
    | none =>
      match (← GetOk StateHalted) with
      | some _ => return RunResult.failed "Build was halted."
      | none => return RunResult.NewArtifact b.config.OutputDir

/-- The method `Builder.Run`.  The driver constructor is given by the error it returns, the two
runners of the multistep library (already holding the step list) by their effect. -/
def Builder.Run (b : Builder) (NewHypervPS4Driver : Option String)
    (DebugRunner BasicRunner : Go Unit) : Go RunResult := do
  match NewHypervPS4Driver with
  | some err => return RunResult.failed ("Failed creating Hyper-V driver: " ++ err)
  | none => do
    (fun m => (Res.ret (), { m with state := ⟨[]⟩ }) : Go Unit)
    Put "config" (Value.config b.config)
    Put "driver" Value.driver
    Put "hook" Value.hook
    Put "ui" Value.ui
    if b.config.PackerDebug then DebugRunner else BasicRunner
    Builder.Run.report b

/-- The constant `LowRam`, in MB. -/
def LowRam : Nat := 512

/-- The Go standard library functions that `checkHostAvailableMemory` relies on:
`strings.TrimSpace`, and `strconv.ParseFloat(s, 64)` with its pair `(float64, error)`. -/
structure Stdlib where
  TrimSpace : String → String
  ParseFloat : String → Float × Option String

/-- The function `getHostAvailableMemory`: the pair `(string, error)` is an `Except`. -/
def getHostAvailableMemory (env : Env) (std : Stdlib) : Go (Except String String) := do
  let r ← Driver.HypervManageOutput env
    "(Get-WmiObject Win32_OperatingSystem).FreePhysicalMemory / 1024"
  match r with
  | Except.error err => return Except.error err
  | Except.ok cmdOut =>
    let freeMemory := std.TrimSpace cmdOut
    return Except.ok freeMemory

/-- The method `Builder.checkHostAvailableMemory`. -/
def Builder.checkHostAvailableMemory (env : Env) (std : Stdlib) (b : Builder) : Go String := do
  let r ← getHostAvailableMemory env std
  match r with
  | Except.ok freeMBStr =>
    let (freeMB, err) := std.ParseFloat freeMBStr
    if err = none ∨ (freeMB - b.config.RamSizeMB.toFloat) < LowRam.toFloat then
      return "Hyper-V might fail to create a VM if there is not enough free memory in the system."
    else
      return ""
  | Except.error _ =>
    return "Hyper-V might fail to create a VM if there is not enough free memory in the system."

/-- Go `strings.Contains` as a proposition: `substr` occurs in `s`. -/
def Contains (s substr : String) : Prop := substr.data <:+: s.data

instance (s substr : String) : Decidable (Contains s substr) := by
  unfold Contains; infer_instance

/-! ## Stubs and scenarios -/

/-- The events of `n` polls that did not see `"True"`: a call, then the 10 second
sleep. -/
def polls (cmd : String) (n : Nat) : List Event :=
  (List.replicate n [Event.manageOutput cmd, Event.sleep SleepSeconds]).flatten

/-- A stub environment: the driver answers `"False"` to the first `n` calls of
`HypervManageOutput` and `"True"` afterwards; every other call succeeds. -/
def stubFalseThenTrue (n : Nat) : Env where
  HypervManage := fun _ _ => none
  HypervManageOutput := fun i _ => if i < n then Except.ok "False" else Except.ok "True"
  TempDir := Except.ok "/tmp/packer"
  Join := fun a b => a ++ "/" ++ b
  Create := fun _ => none
  Open := fun _ => none
  Copy := fun _ _ => none
  Remove := fun _ => none

/-- A stub environment: the driver answers `"False"` to the first `n` calls of
`HypervManageOutput` and fails afterwards. -/
def stubFalseThenError (n : Nat) (err : String) : Env where
  HypervManage := fun _ _ => none
  HypervManageOutput := fun i _ => if i < n then Except.ok "False" else Except.error err
  TempDir := Except.ok "/tmp/packer"
  Join := fun a b => a ++ "/" ++ b
  Create := fun _ => none
  Open := fun _ => none
  Copy := fun _ _ => none
  Remove := fun _ => none

/-- A state bag as the wait step finds it. -/
def waitState : StateBag :=
  ⟨[("vmName", Value.string "vm"), ("ui", Value.ui), ("hook", Value.hook),
    ("driver", Value.driver)]⟩

/-- The configuration of scenario A: RAM 1024, disk 128*1024, switch `sw0`. -/
def scenarioA : config where
  OutputDir := "output-hyperv-iso"
  PackerDebug := false
  DiskName := "disk"
  DiskSize := 128 * 1024
  DiskType := "Dynamic"
  RamSizeMB := 1024
  VMName := "packer-hyperv"
  SwitchName := "sw0"

/-- The state bag of scenario A when `StepCreateVM.Run` starts. -/
def scenarioAState : StateBag :=
  ⟨[("packerTempDir", Value.string "C:/Temp/packerhv"), ("ui", Value.ui), ("hook", Value.hook),
    ("driver", Value.driver), ("config", Value.config scenarioA)]⟩

/-- A stub environment in which `HypervManage` fails with `err` and the rest succeeds. -/
def stubManageFails (err : String) : Env where
  HypervManage := fun _ _ => some err
  HypervManageOutput := fun _ _ => Except.ok "True"
  TempDir := Except.ok "/tmp/packer"
  Join := fun a b => a ++ "/" ++ b
  Create := fun _ => none
  Open := fun _ => none
  Copy := fun _ _ => none
  Remove := fun _ => none

/-- A builder configured as in scenario A. -/
def scenarioABuilder : Builder := ⟨scenarioA⟩

/-- A runner that leaves an error and the halted sentinel in the state bag. -/
def haltingRunner : Go Unit := do
  Put "error" (Value.error "Error creating virtual machine: access denied")
  Put StateHalted (Value.bool true)

/-- A state bag as the floppy step finds it. -/
def floppyState : StateBag :=
  ⟨[("floppy_path", Value.string "C:/Temp/floppy.img"), ("vmName", Value.string "vm"),
    ("ui", Value.ui), ("hook", Value.hook), ("driver", Value.driver)]⟩

/-- A stub environment in which the temporary directory cannot be created. -/
def stubTempDirFails (err : String) : Env where
  HypervManage := fun _ _ => none
  HypervManageOutput := fun _ _ => Except.ok "True"
  TempDir := Except.error err
  Join := fun a b => a ++ "/" ++ b
  Create := fun _ => none
  Open := fun _ => none
  Copy := fun _ _ => none
  Remove := fun _ => none

/-- A stub environment in which the driver and the file removal fail. -/
def stubCleanupFails (err rmErr : String) : Env where
  HypervManage := fun _ _ => some err
  HypervManageOutput := fun _ _ => Except.ok "True"
  TempDir := Except.ok "/tmp/packer"
  Join := fun a b => a ++ "/" ++ b
  Create := fun _ => none
  Open := fun _ => none
  Copy := fun _ _ => none
  Remove := fun _ => some rmErr

/-- A stub environment whose driver answers every `HypervManageOutput` call with `out`. -/
def stubOutput (out : String) : Env where
  HypervManage := fun _ _ => none
  HypervManageOutput := fun _ _ => Except.ok out
  TempDir := Except.ok "/tmp/packer"
  Join := fun a b => a ++ "/" ++ b
  Create := fun _ => none
  Open := fun _ => none
  Copy := fun _ _ => none
  Remove := fun _ => none

/-- A stub of the standard library: the output is taken as trimmed, and parses without
error as `freeMB`. -/
def stubParses (freeMB : Float) : Stdlib where
  TrimSpace := fun s => s
  ParseFloat := fun _ => (freeMB, none)

/-- A stub environment: the driver answers `"True"` to the first call of
`HypervManageOutput` and fails afterwards. -/
def stubTrueThenError (err : String) : Env where
  HypervManage := fun _ _ => none
  HypervManageOutput := fun i _ => if i = 0 then Except.ok "True" else Except.error err
  TempDir := Except.ok "/tmp/packer"
  Join := fun a b => a ++ "/" ++ b
  Create := fun _ => none
  Open := fun _ => none
  Copy := fun _ _ => none
  Remove := fun _ => none

/-- The state bag that `Builder.Run` sets up for scenario A, before any step has put
`"packerTempDir"` in it. -/
def scenarioAInitialState : StateBag :=
  ⟨[("ui", Value.ui), ("hook", Value.hook), ("driver", Value.driver),
    ("config", Value.config scenarioA)]⟩

/-! ## Reasoning about `Go` code -/

theorem Go_bind_apply {α β : Type} (x : Go α) (f : α → Go β) (m : Machine) :
    (x >>= f) m = Go.bind x f m := rfl

theorem Go_pure_apply {α : Type} (a : α) (m : Machine) :
    (pure a : Go α) m = (Res.ret a, m) := rfl

theorem manageOutputCalls_append (t u : List Event) :
    manageOutputCalls (t ++ u) = manageOutputCalls t ++ manageOutputCalls u := by
  simp [manageOutputCalls, List.filterMap_append]

theorem manageOutputCalls_nil : manageOutputCalls [] = [] := rfl

theorem manageOutputCalls_cons (e : Event) (t : List Event) :
    manageOutputCalls (e :: t)
      = (match e with | Event.manageOutput c => [c] | _ => []) ++ manageOutputCalls t := by
  cases e <;> simp [manageOutputCalls, List.filterMap_cons]

theorem polls_succ (cmd : String) (n : Nat) :
    polls cmd (n + 1) = [Event.manageOutput cmd, Event.sleep SleepSeconds] ++ polls cmd n := by
  simp [polls, List.replicate_succ]

theorem manageOutputCalls_polls (cmd : String) (n : Nat) :
    (manageOutputCalls (polls cmd n)).length = n := by
  induction n with
  | zero => simp [polls, manageOutputCalls]
  | succ n ih =>
    rw [polls_succ, manageOutputCalls_append, List.length_append, ih]
    simp [manageOutputCalls_cons, manageOutputCalls_nil, Nat.add_comm]

theorem loop_continue (env : Env) (cmd : String) :
    ∀ (M fuel : Nat) (m : Machine), M < fuel →
      (∀ i, i < M → ∃ out, env.HypervManageOutput ((manageOutputCalls m.trace).length + i) cmd
          = Except.ok out ∧ out ≠ "True") →
      env.HypervManageOutput ((manageOutputCalls m.trace).length + M) cmd = Except.ok "True" →
      StepWaitForPowerOff.Run.loop env cmd fuel m
        = (Res.ret StepAction.ActionContinue,
            { m with trace := m.trace ++ polls cmd M ++ [Event.manageOutput cmd] }) := by
  intro M
  induction M with
  | zero =>
    intro fuel m hfuel _ htrue
    obtain ⟨fuel, rfl⟩ : ∃ k, fuel = k + 1 := ⟨fuel - 1, by omega⟩
    simp only [Nat.add_zero] at htrue
    simp [StepWaitForPowerOff.Run.loop, Go_bind_apply, Go.bind, Driver.HypervManageOutput,
      htrue, polls]
    rfl
  | succ M ih =>
    intro fuel m hfuel hfalse htrue
    obtain ⟨fuel, rfl⟩ : ∃ k, fuel = k + 1 := ⟨fuel - 1, by omega⟩
    obtain ⟨out, hout, hne⟩ := hfalse 0 (Nat.succ_pos M)
    simp only [Nat.add_zero] at hout
    have hlen : (manageOutputCalls (m.trace ++ [Event.manageOutput cmd,
        Event.sleep SleepSeconds])).length = (manageOutputCalls m.trace).length + 1 := by
      simp [manageOutputCalls_append, manageOutputCalls_cons, manageOutputCalls_nil]
    have step := ih fuel
      { m with trace := m.trace ++ [Event.manageOutput cmd, Event.sleep SleepSeconds] }
      (by omega)
      (by
        intro i hi
        have h := hfalse (i + 1) (by omega)
        show ∃ out, env.HypervManageOutput ((manageOutputCalls (m.trace
          ++ [Event.manageOutput cmd, Event.sleep SleepSeconds])).length + i) cmd
            = Except.ok out ∧ out ≠ "True"
        rw [hlen, Nat.add_assoc, Nat.add_comm 1 i]
        exact h)
      (by
        show env.HypervManageOutput ((manageOutputCalls (m.trace
          ++ [Event.manageOutput cmd, Event.sleep SleepSeconds])).length + M) cmd = _
        rw [hlen, Nat.add_assoc, Nat.add_comm 1 M]
        exact htrue)
    simp [StepWaitForPowerOff.Run.loop, Go_bind_apply, Go.bind, Driver.HypervManageOutput,
      hout, hne, Sleep, emit]
    rw [step]
    simp [polls_succ]

theorem loop_halt (env : Env) (cmd err : String) :
    ∀ (k fuel : Nat) (m : Machine), k < fuel →
      (∀ i, i < k → ∃ out, env.HypervManageOutput ((manageOutputCalls m.trace).length + i) cmd
          = Except.ok out ∧ out ≠ "True") →
      env.HypervManageOutput ((manageOutputCalls m.trace).length + k) cmd = Except.error err →
      StepWaitForPowerOff.Run.loop env cmd fuel m
        = (Res.ret StepAction.ActionHalt,
            { state := m.state.Put "error" (Value.error ("Error checking VM's state: " ++ err)),
              trace := m.trace ++ polls cmd k ++ [Event.manageOutput cmd,
                Event.uiError ("Error checking VM's state: " ++ err)] }) := by
  intro k
  induction k with
  | zero =>
    intro fuel m hfuel _ herr
    obtain ⟨fuel, rfl⟩ : ∃ k, fuel = k + 1 := ⟨fuel - 1, by omega⟩
    simp only [Nat.add_zero] at herr
    simp [StepWaitForPowerOff.Run.loop, Go_bind_apply, Go.bind, Driver.HypervManageOutput,
      herr, polls, Put, Ui.Error, emit]
    rfl
  | succ k ih =>
    intro fuel m hfuel hfalse herr
    obtain ⟨fuel, rfl⟩ : ∃ k, fuel = k + 1 := ⟨fuel - 1, by omega⟩
    obtain ⟨out, hout, hne⟩ := hfalse 0 (Nat.succ_pos k)
    simp only [Nat.add_zero] at hout
    have hlen : (manageOutputCalls (m.trace ++ [Event.manageOutput cmd,
        Event.sleep SleepSeconds])).length = (manageOutputCalls m.trace).length + 1 := by
      simp [manageOutputCalls_append, manageOutputCalls_cons, manageOutputCalls_nil]
    have step := ih fuel
      { m with trace := m.trace ++ [Event.manageOutput cmd, Event.sleep SleepSeconds] }
      (by omega)
      (by
        intro i hi
        have h := hfalse (i + 1) (by omega)
        show ∃ out, env.HypervManageOutput ((manageOutputCalls (m.trace
          ++ [Event.manageOutput cmd, Event.sleep SleepSeconds])).length + i) cmd
            = Except.ok out ∧ out ≠ "True"
        rw [hlen, Nat.add_assoc, Nat.add_comm 1 i]
        exact h)
      (by
        show env.HypervManageOutput ((manageOutputCalls (m.trace
          ++ [Event.manageOutput cmd, Event.sleep SleepSeconds])).length + k) cmd = _
        rw [hlen, Nat.add_assoc, Nat.add_comm 1 k]
        exact herr)
    simp [StepWaitForPowerOff.Run.loop, Go_bind_apply, Go.bind, Driver.HypervManageOutput,
      hout, hne, Sleep, emit]
    rw [step]
    simp [polls_succ]

theorem StateBag.GetOk_Put_same (s : StateBag) (key : String) (v : Value) :
    (s.Put key v).GetOk key = some v := by
  simp [StateBag.Put, StateBag.GetOk, List.lookup]

theorem manageCalls_nil : manageCalls [] = [] := rfl

theorem manageCalls_cons (e : Event) (t : List Event) :
    manageCalls (e :: t) = (match e with | Event.manage c => [c] | _ => []) ++ manageCalls t := by
  cases e <;> simp [manageCalls, List.filterMap_cons]

theorem manageCalls_append (t u : List Event) :
    manageCalls (t ++ u) = manageCalls t ++ manageCalls u := by
  simp [manageCalls, List.filterMap_append]

theorem uiErrors_nil : uiErrors [] = [] := rfl

theorem uiErrors_cons (e : Event) (t : List Event) :
    uiErrors (e :: t) = (match e with | Event.uiError c => [c] | _ => []) ++ uiErrors t := by
  cases e <;> simp [uiErrors, List.filterMap_cons]

theorem uiErrors_append (t u : List Event) :
    uiErrors (t ++ u) = uiErrors t ++ uiErrors u := by
  simp [uiErrors, List.filterMap_append]

theorem lookup_filter_ne (key key2 : String) (h : key2 ≠ key) :
    ∀ l : List (String × Value),
      List.lookup key2 (l.filter (fun e => e.1 != key)) = List.lookup key2 l := by
  intro l
  induction l with
  | nil => rfl
  | cons e l ih =>
    obtain ⟨a, v⟩ := e
    by_cases ha : a = key
    · subst ha
      have hk : (key2 == a) = false := by simpa using h
      simp [List.filter_cons, List.lookup_cons, hk, ih]
    · have hne : (a != key) = true := by simpa using ha
      simp only [List.filter_cons, hne, if_true, List.lookup_cons, ih]

theorem StateBag.GetOk_Put_other (s : StateBag) (key key2 : String) (v : Value)
    (h : key2 ≠ key) : (s.Put key v).GetOk key2 = s.GetOk key2 := by
  have hk : (key2 == key) = false := by simpa using h
  simp [StateBag.Put, StateBag.GetOk, List.lookup_cons, hk, lookup_filter_ne key key2 h]

theorem Contains_append_right (a b : String) : Contains (a ++ b) b := by
  unfold Contains
  rw [String.data_append]
  exact (List.suffix_append _ _).isInfix

theorem Builder.Run.report_error (b : Builder) (m : Machine) (e : String)
    (h : m.state.GetOk "error" = some (Value.error e)) :
    Builder.Run.report b m = (Res.ret (RunResult.failed e), m) := by
  simp [Builder.Run.report, Go_bind_apply, Go.bind, GetOk, h]
  rfl

theorem Builder.Run.report_cancelled (b : Builder) (m : Machine)
    (h : m.state.GetOk "error" = none) (hc : m.state.GetOk StateCancelled ≠ none) :
    Builder.Run.report b m = (Res.ret (RunResult.failed "Build was cancelled."), m) := by
  obtain ⟨v, hv⟩ := Option.ne_none_iff_exists'.mp hc
  simp [Builder.Run.report, Go_bind_apply, Go.bind, GetOk, h, hv]
  rfl

theorem Builder.Run.report_halted (b : Builder) (m : Machine)
    (h : m.state.GetOk "error" = none) (hc : m.state.GetOk StateCancelled = none)
    (hh : m.state.GetOk StateHalted ≠ none) :
    Builder.Run.report b m = (Res.ret (RunResult.failed "Build was halted."), m) := by
  obtain ⟨v, hv⟩ := Option.ne_none_iff_exists'.mp hh
  simp [Builder.Run.report, Go_bind_apply, Go.bind, GetOk, h, hc, hv]
  rfl

theorem Builder.Run.report_artifact (b : Builder) (m : Machine)
    (h : m.state.GetOk "error" = none) (hc : m.state.GetOk StateCancelled = none)
    (hh : m.state.GetOk StateHalted = none) :
    Builder.Run.report b m = (Res.ret (RunResult.NewArtifact b.config.OutputDir), m) := by
  simp [Builder.Run.report, Go_bind_apply, Go.bind, GetOk, h, hc, hh]
  rfl

theorem Builder.Run.report_artifact_only (b : Builder) (m : Machine) (dir : String)
    (h : (Builder.Run.report b m).1 = Res.ret (RunResult.NewArtifact dir)) :
    m.state.GetOk "error" = none ∧ m.state.GetOk StateCancelled = none
      ∧ m.state.GetOk StateHalted = none := by
  rcases he : m.state.GetOk "error" with _ | v
  · rcases hc : m.state.GetOk StateCancelled with _ | v
    · rcases hh : m.state.GetOk StateHalted with _ | v
      · exact ⟨rfl, rfl, rfl⟩
      · rw [Builder.Run.report_halted b m he hc (by simp [hh])] at h
        simp at h
    · rw [Builder.Run.report_cancelled b m he (by simp [hc])] at h
      simp at h
  · cases v <;>
      simp [Builder.Run.report, Go_bind_apply, Go.bind, GetOk, he, Go.panic, Go_pure_apply] at h

theorem Builder.Run_eq_report (b : Builder) (DebugRunner BasicRunner : Go Unit)
    (m m1 : Machine)
    (hrun : (if b.config.PackerDebug then DebugRunner else BasicRunner)
        { state := ((((⟨[]⟩ : StateBag).Put "config" (Value.config b.config)).Put "driver"
            Value.driver).Put "hook" Value.hook).Put "ui" Value.ui,
          trace := m.trace } = (Res.ret (), m1)) :
    Builder.Run b none DebugRunner BasicRunner m = Builder.Run.report b m1 := by
  by_cases hd : b.config.PackerDebug = true
  · rw [if_pos hd] at hrun
    simp [Builder.Run, Go_bind_apply, Go.bind, Put, hd, hrun]
  · rw [if_neg hd] at hrun
    simp [Builder.Run, Go_bind_apply, Go.bind, Put, hd, hrun]

theorem Go_bind_ret {α β : Type} {x : Go α} {f : α → Go β} {m m1 : Machine} {b : β}
    (h : (x >>= f) m = (Res.ret b, m1)) :
    ∃ a m0, x m = (Res.ret a, m0) ∧ f a m0 = (Res.ret b, m1) := by
  rw [Go_bind_apply] at h
  unfold Go.bind at h
  split at h
  · next a m0 hx => exact ⟨a, m0, hx, h⟩
  · simp at h
  · simp at h

theorem GetUi_ret {key : String} {m m1 : Machine} {a : Unit}
    (h : GetUi key m = (Res.ret a, m1)) : m1 = m := by
  unfold GetUi at h
  split at h <;> simp at h
  exact h.symm

theorem GetDriver_ret {key : String} {m m1 : Machine} {a : Unit}
    (h : GetDriver key m = (Res.ret a, m1)) : m1 = m := by
  unfold GetDriver at h
  split at h <;> simp at h
  exact h.symm

theorem GetString_ret {key : String} {m m1 : Machine} {a : String}
    (h : GetString key m = (Res.ret a, m1)) : m1 = m := by
  unfold GetString at h
  split at h <;> simp at h
  exact h.2.symm

theorem GetConfig_ret {key : String} {m m1 : Machine} {a : config}
    (h : GetConfig key m = (Res.ret a, m1)) : m1 = m := by
  unfold GetConfig at h
  split at h <;> simp at h
  exact h.2.symm

theorem StepCreateVM_Run_halt (env : Env) (s s1 : StepCreateVM) (m m1 : Machine)
    (h : StepCreateVM.Run env s m = (Res.ret (StepAction.ActionHalt, s1), m1)) :
    ∃ msg t, m1.state.GetOk "error" = some (Value.error msg)
      ∧ m1.trace = m.trace ++ t ++ [Event.uiError msg] := by
  unfold StepCreateVM.Run at h
  obtain ⟨u2, m2, h2, ha⟩ := Go_bind_ret h
  obtain rfl := GetUi_ret h2
  obtain ⟨u3, m3, h3, hb⟩ := Go_bind_ret ha
  obtain ⟨c, m4, h4, hc⟩ := Go_bind_ret hb
  obtain rfl := GetConfig_ret h4
  obtain ⟨u5, m5, h5, hd⟩ := Go_bind_ret hc
  obtain rfl := GetDriver_ret h5
  obtain ⟨path, m6, h6, he⟩ := Go_bind_ret hd
  obtain rfl := GetString_ret h6
  obtain ⟨err, m7, h7, hf⟩ := Go_bind_ret he
  simp only [Ui.Say, emit, Prod.mk.injEq, Res.ret.injEq, true_and] at h3
  subst h3
  simp only [Driver.HypervManage, Prod.mk.injEq, Res.ret.injEq] at h7
  obtain ⟨_, rfl⟩ := h7
  cases err with
  | none =>
    simp [Go_bind_apply, Go.bind, Put, Go_pure_apply] at hf
  | some e =>
    simp [Go_bind_apply, Go.bind, Put, Go_pure_apply, Ui.Error, emit] at hf
    obtain ⟨_, rfl⟩ := hf
    exact ⟨_, [Event.say "Creating virtual machine...",
      Event.manage (StepCreateVM.Run.blockBuffer c.VMName path c.RamSizeMB
        (c.DiskSize * 1024 % uintModulus) c.SwitchName)],
      StateBag.GetOk_Put_same _ _ _, by simp⟩

theorem loop_halt_reports (env : Env) (cmd : String) :
    ∀ (fuel : Nat) (m m1 : Machine),
      StepWaitForPowerOff.Run.loop env cmd fuel m = (Res.ret StepAction.ActionHalt, m1) →
      ∃ msg t, m1.state.GetOk "error" = some (Value.error msg)
        ∧ m1.trace = m.trace ++ t ++ [Event.uiError msg] := by
  intro fuel
  induction fuel with
  | zero =>
    intro m m1 h
    simp [StepWaitForPowerOff.Run.loop, Go.diverge] at h
  | succ fuel ih =>
    intro m m1 h
    unfold StepWaitForPowerOff.Run.loop at h
    obtain ⟨r, m2, h2, ha⟩ := Go_bind_ret h
    simp only [Driver.HypervManageOutput, Prod.mk.injEq, Res.ret.injEq] at h2
    obtain ⟨_, rfl⟩ := h2
    cases r with
    | error err =>
      simp [Go_bind_apply, Go.bind, Put, Go_pure_apply, Ui.Error, emit] at ha
      subst ha
      exact ⟨_, [Event.manageOutput cmd], StateBag.GetOk_Put_same _ _ _, by simp⟩
    | ok cmdOut =>
      by_cases hT : cmdOut = "True"
      · simp [hT, Go_pure_apply] at ha
      · simp only [hT, if_false] at ha
        obtain ⟨u, m3, h3, hb⟩ := Go_bind_ret ha
        simp only [Sleep, emit, Prod.mk.injEq, Res.ret.injEq, true_and] at h3
        subst h3
        obtain ⟨msg, t, hmsg, ht⟩ := ih _ _ hb
        exact ⟨msg, [Event.manageOutput cmd, Event.sleep SleepSeconds] ++ t, hmsg, by
          rw [ht]; simp⟩

theorem StepWaitForPowerOff_Run_halt (env : Env) (s : StepWaitForPowerOff) (fuel : Nat)
    (m m1 : Machine)
    (h : StepWaitForPowerOff.Run env s fuel m = (Res.ret StepAction.ActionHalt, m1)) :
    ∃ msg t, m1.state.GetOk "error" = some (Value.error msg)
      ∧ m1.trace = m.trace ++ t ++ [Event.uiError msg] := by
  unfold StepWaitForPowerOff.Run at h
  obtain ⟨u2, m2, h2, ha⟩ := Go_bind_ret h
  obtain rfl := GetUi_ret h2
  obtain ⟨u3, m3, h3, hb⟩ := Go_bind_ret ha
  obtain rfl := GetDriver_ret h3
  obtain ⟨vmName, m4, h4, hc⟩ := Go_bind_ret hb
  obtain rfl := GetString_ret h4
  obtain ⟨u5, m5, h5, hd⟩ := Go_bind_ret hc
  obtain ⟨u6, m6, h6, he⟩ := Go_bind_ret hd
  simp only [Ui.Say, emit, Prod.mk.injEq, Res.ret.injEq, true_and] at h5
  subst h5
  simp only [Sleep, emit, Prod.mk.injEq, Res.ret.injEq, true_and] at h6
  subst h6
  obtain ⟨msg, t, hmsg, ht⟩ := loop_halt_reports env _ fuel _ _ he
  exact ⟨msg, [Event.say "Waiting for vm to be powered down...", Event.sleep 300] ++ t, hmsg,
    by rw [ht]; simp⟩

theorem copyFloppy_frame (env : Env) (path : String) (m : Machine) :
    (StepMountFloppydrive.copyFloppy env path m).2.state = m.state
      ∧ uiErrors (StepMountFloppydrive.copyFloppy env path m).2.trace = uiErrors m.trace
      ∧ manageCalls (StepMountFloppydrive.copyFloppy env path m).2.trace
          = manageCalls m.trace := by
  unfold StepMountFloppydrive.copyFloppy
  rcases hT : env.TempDir with e | tempdir
  · simp [Go_bind_apply, Go.bind, emit, Go_pure_apply, uiErrors_append, uiErrors_cons,
      uiErrors_nil, manageCalls_append, manageCalls_cons, manageCalls_nil]
  · rcases hC : env.Create (env.Join tempdir "floppy.vfd") with _ | e
    · rcases hO : env.Open path with _ | e
      · rcases hY : env.Copy (env.Join tempdir "floppy.vfd") path with _ | e <;>
          simp [Go_bind_apply, Go.bind, emit, Go_pure_apply, uiErrors_append, uiErrors_cons,
            uiErrors_nil, manageCalls_append, manageCalls_cons, manageCalls_nil, Println,
            hC, hO, hY]
      · simp [Go_bind_apply, Go.bind, emit, Go_pure_apply, uiErrors_append, uiErrors_cons,
          uiErrors_nil, manageCalls_append, manageCalls_cons, manageCalls_nil, hC, hO]
    · simp [Go_bind_apply, Go.bind, emit, Go_pure_apply, uiErrors_append, uiErrors_cons,
        uiErrors_nil, manageCalls_append, manageCalls_cons, manageCalls_nil, hC]

theorem StepMountFloppydrive_Run_halt (env : Env) (s s1 : StepMountFloppydrive)
    (m m1 : Machine)
    (h : StepMountFloppydrive.Run env s m = (Res.ret (StepAction.ActionHalt, s1), m1)) :
    (∃ msg, m1.state.GetOk "error" = some (Value.error msg))
      ∧ uiErrors m1.trace = uiErrors m.trace := by
  unfold StepMountFloppydrive.Run at h
  obtain ⟨raw, m2, h2, ha⟩ := Go_bind_ret h
  simp only [GetOk, Prod.mk.injEq, Res.ret.injEq] at h2
  obtain ⟨_, rfl⟩ := h2
  cases raw with
  | none => simp [Go_bind_apply, Go.bind, Println, emit, Go_pure_apply] at ha
  | some v =>
    simp only at ha
    obtain ⟨floppyPath, m3, h3, hb⟩ := Go_bind_ret ha
    have hm3 : m3 = m := by
      cases v <;> simp [assertString, Go.panic, Go_pure_apply] at h3
      exact h3.2.symm
    subst hm3
    obtain ⟨copied, m4, h4, hc⟩ := Go_bind_ret hb
    obtain ⟨hst, hui, _⟩ := copyFloppy_frame env floppyPath m3
    rw [h4] at hst hui
    simp only at hst hui
    cases copied with
    | error err =>
      simp [Go_bind_apply, Go.bind, Put, Go_pure_apply] at hc
      obtain ⟨_, rfl⟩ := hc
      exact ⟨⟨_, StateBag.GetOk_Put_same _ _ _⟩, hui⟩
    | ok fp =>
      simp only at hc
      obtain ⟨u5, m5, h5, hd⟩ := Go_bind_ret hc
      obtain rfl := GetUi_ret h5
      obtain ⟨u6, m6, h6, he⟩ := Go_bind_ret hd
      simp only [Ui.Say, emit, Prod.mk.injEq, Res.ret.injEq, true_and] at h6
      subst h6
      obtain ⟨vmName, m7, h7, hf⟩ := Go_bind_ret he
      obtain rfl := GetString_ret h7
      obtain ⟨u8, m8, h8, hg⟩ := Go_bind_ret hf
      obtain rfl := GetDriver_ret h8
      obtain ⟨err, m9, h9, hh⟩ := Go_bind_ret hg
      simp only [mountFloppyDrive, Driver.HypervManage, Prod.mk.injEq, Res.ret.injEq] at h9
      obtain ⟨_, rfl⟩ := h9
      cases err with
      | none => simp [Go_pure_apply] at hh
      | some e =>
        simp [Go_bind_apply, Go.bind, Put, Go_pure_apply] at hh
        obtain ⟨_, rfl⟩ := hh
        refine ⟨⟨_, StateBag.GetOk_Put_same _ _ _⟩, ?_⟩
        simp [uiErrors_append, uiErrors_cons, uiErrors_nil, hui]

theorem bind_state {α β : Type} {x : Go α} {f : α → Go β}
    (hx : ∀ m, (x m).2.state = m.state) (hf : ∀ a m, (f a m).2.state = m.state) :
    ∀ m, ((x >>= f) m).2.state = m.state := by
  intro m
  rw [Go_bind_apply]
  unfold Go.bind
  have h1 := hx m
  split
  · next a m0 hxm =>
    rw [hxm] at h1
    rw [hf a m0]
    exact h1
  · next msg m0 hxm =>
    rw [hxm] at h1
    exact h1
  · next m0 hxm =>
    rw [hxm] at h1
    exact h1

theorem pure_state {α : Type} (a : α) : ∀ m, ((pure a : Go α) m).2.state = m.state :=
  fun _ => rfl

theorem emit_state (e : Event) : ∀ m, (emit e m).2.state = m.state := fun _ => rfl

theorem GetUi_state (key : String) : ∀ m, (GetUi key m).2.state = m.state := by
  intro m
  unfold GetUi
  split <;> rfl

theorem GetDriver_state (key : String) : ∀ m, (GetDriver key m).2.state = m.state := by
  intro m
  unfold GetDriver
  split <;> rfl

theorem GetString_state (key : String) : ∀ m, (GetString key m).2.state = m.state := by
  intro m
  unfold GetString
  split <;> rfl

theorem HypervManage_state (env : Env) (cmd : String) :
    ∀ m, (Driver.HypervManage env cmd m).2.state = m.state := fun _ => rfl

theorem StepCreateVM_Cleanup_state (env : Env) (s : StepCreateVM) :
    ∀ m, (StepCreateVM.Cleanup env s m).2.state = m.state := by
  unfold StepCreateVM.Cleanup
  split
  · exact pure_state ()
  · refine bind_state (GetDriver_state _) (fun _ => ?_)
    refine bind_state (GetUi_state _) (fun _ => ?_)
    refine bind_state (emit_state _) (fun _ => ?_)
    refine bind_state (HypervManage_state env _) (fun err => ?_)
    cases err with
    | none => exact pure_state ()
    | some e => exact emit_state _

theorem StepMountFloppydrive_Cleanup_state (env : Env) (s : StepMountFloppydrive) :
    ∀ m, (StepMountFloppydrive.Cleanup env s m).2.state = m.state := by
  unfold StepMountFloppydrive.Cleanup
  split
  · exact pure_state ()
  · refine bind_state (GetString_state _) (fun _ => ?_)
    refine bind_state (GetUi_state _) (fun _ => ?_)
    refine bind_state (emit_state _) (fun _ => ?_)
    refine bind_state (GetDriver_state _) (fun _ => ?_)
    refine bind_state (HypervManage_state env _) (fun err => ?_)
    have hrest : ∀ m, ((do
        let err ← Remove env s.floppyPath
        match err with
          | some err => Ui.Error ("Error unmounting floppy drive: " ++ err)
          | none => pure ()) m).2.state = m.state := by
      refine bind_state (bind_state (emit_state _) (fun _ => pure_state _)) (fun err2 => ?_)
      cases err2 with
      | none => exact pure_state ()
      | some e => exact emit_state _
    cases err with
    | none => exact bind_state (pure_state ()) (fun _ => hrest)
    | some e => exact bind_state (emit_state _) (fun _ => hrest)

/-! ## The claims -/

/-- C1: if the driver stub answers its first `M` calls of `HypervManageOutput` with a text
other than `"True"` and call `M + 1` with `"True"`, then `StepWaitForPowerOff.Run` (on any
fuel above `M`) returns `ActionContinue`, leaves the state bag as it was (so no `"error"`
is put), and the events it adds are: the message, the one sleep of 300 seconds, `M` times
a call followed by the 10 second sleep, and the last call; `M + 1` calls in all. -/
theorem StepWaitForPowerOff_Run_polls_until_True (env : Env) (s : StepWaitForPowerOff)
    (M fuel : Nat) (m : Machine) (vmName : String)
    (hui : m.state.GetOk "ui" = some Value.ui)
    (hdriver : m.state.GetOk "driver" = some Value.driver)
    (hvm : m.state.GetOk "vmName" = some (Value.string vmName))
    (hfresh : manageOutputCalls m.trace = [])
    (hfalse : ∀ i, i < M → ∀ cmd, ∃ out,
      env.HypervManageOutput i cmd = Except.ok out ∧ out ≠ "True")
    (htrue : ∀ cmd, env.HypervManageOutput M cmd = Except.ok "True")
    (hfuel : M < fuel) :
    StepWaitForPowerOff.Run env s fuel m
        = (Res.ret StepAction.ActionContinue,
            { state := m.state,
              trace := m.trace
                ++ [Event.say "Waiting for vm to be powered down...", Event.sleep 300]
                ++ polls (StepWaitForPowerOff.blockBuffer vmName) M
                ++ [Event.manageOutput (StepWaitForPowerOff.blockBuffer vmName)] })
      ∧ (manageOutputCalls (StepWaitForPowerOff.Run env s fuel m).2.trace).length = M + 1
      ∧ (StepWaitForPowerOff.Run env s fuel m).2.state.GetOk "error"
          = m.state.GetOk "error" := by
  have hrun : StepWaitForPowerOff.Run env s fuel m
      = (Res.ret StepAction.ActionContinue,
          { state := m.state,
            trace := m.trace
              ++ [Event.say "Waiting for vm to be powered down...", Event.sleep 300]
              ++ polls (StepWaitForPowerOff.blockBuffer vmName) M
              ++ [Event.manageOutput (StepWaitForPowerOff.blockBuffer vmName)] }) := by
    have hlen : (manageOutputCalls (m.trace
        ++ [Event.say "Waiting for vm to be powered down...", Event.sleep 300])).length = 0 := by
      simp [manageOutputCalls_append, hfresh, manageOutputCalls_cons, manageOutputCalls_nil]
    have hloop := loop_continue env (StepWaitForPowerOff.blockBuffer vmName) M fuel
      { state := m.state,
        trace := m.trace ++ [Event.say "Waiting for vm to be powered down...", Event.sleep 300] }
      hfuel
      (by
        intro i hi
        show ∃ out, env.HypervManageOutput ((manageOutputCalls (m.trace
          ++ [Event.say "Waiting for vm to be powered down...", Event.sleep 300])).length + i)
            (StepWaitForPowerOff.blockBuffer vmName) = Except.ok out ∧ out ≠ "True"
        rw [hlen, Nat.zero_add]
        exact hfalse i hi _)
      (by
        show env.HypervManageOutput ((manageOutputCalls (m.trace
          ++ [Event.say "Waiting for vm to be powered down...", Event.sleep 300])).length + M)
            (StepWaitForPowerOff.blockBuffer vmName) = _
        rw [hlen, Nat.zero_add]
        exact htrue _)
    simp [StepWaitForPowerOff.Run, Go_bind_apply, Go.bind, GetUi, GetDriver, GetString, hui,
      hdriver, hvm, Ui.Say, Sleep, emit]
    rw [hloop]
    simp
  rw [hrun]
  refine ⟨rfl, ?_, rfl⟩
  simp [manageOutputCalls_append, hfresh, manageOutputCalls_polls, manageOutputCalls_cons,
    manageOutputCalls_nil]

/-- Witness for C1: two `"False"` answers, then `"True"`. -/
theorem StepWaitForPowerOff_Run_polls_until_True_witness :
    StepWaitForPowerOff.Run (stubFalseThenTrue 2) {} 3 ⟨waitState, []⟩
        = (Res.ret StepAction.ActionContinue,
            { state := waitState,
              trace := [] ++ [Event.say "Waiting for vm to be powered down...", Event.sleep 300]
                ++ polls (StepWaitForPowerOff.blockBuffer "vm") 2
                ++ [Event.manageOutput (StepWaitForPowerOff.blockBuffer "vm")] })
      ∧ (manageOutputCalls
          (StepWaitForPowerOff.Run (stubFalseThenTrue 2) {} 3 ⟨waitState, []⟩).2.trace).length
          = 2 + 1
      ∧ (StepWaitForPowerOff.Run (stubFalseThenTrue 2) {} 3 ⟨waitState, []⟩).2.state.GetOk
          "error" = waitState.GetOk "error" :=
  StepWaitForPowerOff_Run_polls_until_True (stubFalseThenTrue 2) {} 2 3 ⟨waitState, []⟩ "vm"
    (by decide) (by decide) (by decide) (by decide)
    (fun i hi _ => ⟨"False", by simp [stubFalseThenTrue, hi], by decide⟩)
    (fun _ => by simp [stubFalseThenTrue]) (by decide)

/-- C2 (amended): on a state bag that holds a UI under `"ui"`, a driver under `"driver"` and
a string under `"vmName"`, if the driver stub answers its first `k` calls of
`HypervManageOutput` with a text other than `"True"` and call `k + 1` fails with `err`, then
`StepWaitForPowerOff.Run` (on any fuel above `k`) returns `ActionHalt`, puts the error under
`"error"`, and the failed call is its last: `k + 1` calls in all, followed only by
`ui.Error`.  With `k = 0` the first call fails and exactly one call is made. -/
theorem StepWaitForPowerOff_Run_halts_on_error (env : Env) (s : StepWaitForPowerOff)
    (k fuel : Nat) (m : Machine) (vmName err : String)
    (hui : m.state.GetOk "ui" = some Value.ui)
    (hdriver : m.state.GetOk "driver" = some Value.driver)
    (hvm : m.state.GetOk "vmName" = some (Value.string vmName))
    (hfresh : manageOutputCalls m.trace = [])
    (hfalse : ∀ i, i < k → ∀ cmd, ∃ out,
      env.HypervManageOutput i cmd = Except.ok out ∧ out ≠ "True")
    (herr : ∀ cmd, env.HypervManageOutput k cmd = Except.error err)
    (hfuel : k < fuel) :
    StepWaitForPowerOff.Run env s fuel m
        = (Res.ret StepAction.ActionHalt,
            { state := m.state.Put "error" (Value.error ("Error checking VM's state: " ++ err)),
              trace := m.trace
                ++ [Event.say "Waiting for vm to be powered down...", Event.sleep 300]
                ++ polls (StepWaitForPowerOff.blockBuffer vmName) k
                ++ [Event.manageOutput (StepWaitForPowerOff.blockBuffer vmName),
                    Event.uiError ("Error checking VM's state: " ++ err)] })
      ∧ (manageOutputCalls (StepWaitForPowerOff.Run env s fuel m).2.trace).length = k + 1
      ∧ (StepWaitForPowerOff.Run env s fuel m).2.state.GetOk "error"
          = some (Value.error ("Error checking VM's state: " ++ err)) := by
  have hrun : StepWaitForPowerOff.Run env s fuel m
      = (Res.ret StepAction.ActionHalt,
          { state := m.state.Put "error" (Value.error ("Error checking VM's state: " ++ err)),
            trace := m.trace
              ++ [Event.say "Waiting for vm to be powered down...", Event.sleep 300]
              ++ polls (StepWaitForPowerOff.blockBuffer vmName) k
              ++ [Event.manageOutput (StepWaitForPowerOff.blockBuffer vmName),
                  Event.uiError ("Error checking VM's state: " ++ err)] }) := by
    have hlen : (manageOutputCalls (m.trace
        ++ [Event.say "Waiting for vm to be powered down...", Event.sleep 300])).length = 0 := by
      simp [manageOutputCalls_append, hfresh, manageOutputCalls_cons, manageOutputCalls_nil]
    have hloop := loop_halt env (StepWaitForPowerOff.blockBuffer vmName) err k fuel
      { state := m.state,
        trace := m.trace ++ [Event.say "Waiting for vm to be powered down...", Event.sleep 300] }
      hfuel
      (by
        intro i hi
        show ∃ out, env.HypervManageOutput ((manageOutputCalls (m.trace
          ++ [Event.say "Waiting for vm to be powered down...", Event.sleep 300])).length + i)
            (StepWaitForPowerOff.blockBuffer vmName) = Except.ok out ∧ out ≠ "True"
        rw [hlen, Nat.zero_add]
        exact hfalse i hi _)
      (by
        show env.HypervManageOutput ((manageOutputCalls (m.trace
          ++ [Event.say "Waiting for vm to be powered down...", Event.sleep 300])).length + k)
            (StepWaitForPowerOff.blockBuffer vmName) = _
        rw [hlen, Nat.zero_add]
        exact herr _)
    simp [StepWaitForPowerOff.Run, Go_bind_apply, Go.bind, GetUi, GetDriver, GetString, hui,
      hdriver, hvm, Ui.Say, Sleep, emit]
    rw [hloop]
    simp
  rw [hrun]
  refine ⟨rfl, ?_, StateBag.GetOk_Put_same _ _ _⟩
  simp [manageOutputCalls_append, hfresh, manageOutputCalls_polls, manageOutputCalls_cons,
    manageOutputCalls_nil]

/-- Witness for C2 (amended): the first call fails. -/
theorem StepWaitForPowerOff_Run_halts_on_error_witness :
    StepWaitForPowerOff.Run (stubFalseThenError 0 "no connection") {} 1 ⟨waitState, []⟩
        = (Res.ret StepAction.ActionHalt,
            { state := waitState.Put "error"
                (Value.error ("Error checking VM's state: " ++ "no connection")),
              trace := [] ++ [Event.say "Waiting for vm to be powered down...", Event.sleep 300]
                ++ polls (StepWaitForPowerOff.blockBuffer "vm") 0
                ++ [Event.manageOutput (StepWaitForPowerOff.blockBuffer "vm"),
                    Event.uiError ("Error checking VM's state: " ++ "no connection")] })
      ∧ (manageOutputCalls (StepWaitForPowerOff.Run (stubFalseThenError 0 "no connection") {} 1
          ⟨waitState, []⟩).2.trace).length = 0 + 1
      ∧ (StepWaitForPowerOff.Run (stubFalseThenError 0 "no connection") {} 1
          ⟨waitState, []⟩).2.state.GetOk "error"
          = some (Value.error ("Error checking VM's state: " ++ "no connection")) :=
  StepWaitForPowerOff_Run_halts_on_error (stubFalseThenError 0 "no connection") {} 0 1
    ⟨waitState, []⟩ "vm" "no connection"
    (by decide) (by decide) (by decide) (by decide)
    (fun i hi _ => absurd hi (Nat.not_lt_zero i))
    (fun _ => by simp [stubFalseThenError]) (by decide)

/-- C2 (as stated, refuted): with a driver stub whose first `HypervManageOutput` call fails,
`StepWaitForPowerOff.Run` on the empty state bag panics in its first type assertion: it makes
no call at all, records no error and does not return `ActionHalt`.  And with a stub whose
first call answers `"True"` and whose second call is the first to fail, `Run` on a full state
bag makes one call, not two, and returns `ActionContinue`. -/
theorem StepWaitForPowerOff_Run_not_for_every_state_bag :
    ((stubFalseThenError 0 "no connection").HypervManageOutput 0
          (StepWaitForPowerOff.blockBuffer "vm") = Except.error "no connection"
      ∧ StepWaitForPowerOff.Run (stubFalseThenError 0 "no connection") {} 1 ⟨⟨[]⟩, []⟩
          = (Res.panic "interface conversion", ⟨⟨[]⟩, []⟩)
      ∧ (StepWaitForPowerOff.Run (stubFalseThenError 0 "no connection") {} 1 ⟨⟨[]⟩, []⟩).1
          ≠ Res.ret StepAction.ActionHalt
      ∧ manageOutputCalls
          (StepWaitForPowerOff.Run (stubFalseThenError 0 "no connection") {} 1 ⟨⟨[]⟩, []⟩).2.trace
          = []
      ∧ (StepWaitForPowerOff.Run (stubFalseThenError 0 "no connection") {} 1
          ⟨⟨[]⟩, []⟩).2.state.GetOk "error" = none)
    ∧ ((stubTrueThenError "no connection").HypervManageOutput 0
          (StepWaitForPowerOff.blockBuffer "vm") = Except.ok "True"
      ∧ (stubTrueThenError "no connection").HypervManageOutput 1
          (StepWaitForPowerOff.blockBuffer "vm") = Except.error "no connection"
      ∧ (StepWaitForPowerOff.Run (stubTrueThenError "no connection") {} 2 ⟨waitState, []⟩).1
          = Res.ret StepAction.ActionContinue
      ∧ (manageOutputCalls (StepWaitForPowerOff.Run (stubTrueThenError "no connection") {} 2
          ⟨waitState, []⟩).2.trace).length = 1) := by
  refine ⟨⟨rfl, by decide, by decide, by decide, by decide⟩,
    rfl, rfl, by decide, by decide⟩

set_option maxRecDepth 100000 in
/-- C3: in scenario A (RAM 1024, disk 128*1024 = 131072, switch `sw0`) with a driver that
succeeds, `StepCreateVM.Run` issues one `HypervManage` call, returns `ActionContinue` and
puts the configured name under `"vmName"`; the command contains the name, `1024` and `sw0`,
but the disk size in it is `134217728` (the configured size times 1024, with the unit `GB`)
and the configured size `131072` does not occur in the command. -/
theorem StepCreateVM_Run_scenarioA_disk_size :
    StepCreateVM.Run (stubFalseThenTrue 0) ⟨""⟩ ⟨scenarioAState, []⟩
        = (Res.ret (StepAction.ActionContinue, ⟨"packer-hyperv"⟩),
            { state := scenarioAState.Put "vmName" (Value.string "packer-hyperv"),
              trace := [Event.say "Creating virtual machine...",
                Event.manage ("Invoke-Command -scriptblock \x7bNew-VM -Name 'packer-hyperv'"
                  ++ " -Path 'C:/Temp/packerhv' -MemoryStartupBytes 1024MB"
                  ++ " -NewVHDPath 'C:/Temp/packerhv/packer-hyperv.vhdx'"
                  ++ " -NewVHDSizeBytes 134217728GB -SwitchName 'sw0'\x7d")] })
      ∧ scenarioA.DiskSize = 131072
      ∧ Contains ("Invoke-Command -scriptblock \x7bNew-VM -Name 'packer-hyperv'"
          ++ " -Path 'C:/Temp/packerhv' -MemoryStartupBytes 1024MB"
          ++ " -NewVHDPath 'C:/Temp/packerhv/packer-hyperv.vhdx'"
          ++ " -NewVHDSizeBytes 134217728GB -SwitchName 'sw0'\x7d") scenarioA.VMName
      ∧ Contains ("Invoke-Command -scriptblock \x7bNew-VM -Name 'packer-hyperv'"
          ++ " -Path 'C:/Temp/packerhv' -MemoryStartupBytes 1024MB"
          ++ " -NewVHDPath 'C:/Temp/packerhv/packer-hyperv.vhdx'"
          ++ " -NewVHDSizeBytes 134217728GB -SwitchName 'sw0'\x7d") (toString scenarioA.RamSizeMB)
      ∧ Contains ("Invoke-Command -scriptblock \x7bNew-VM -Name 'packer-hyperv'"
          ++ " -Path 'C:/Temp/packerhv' -MemoryStartupBytes 1024MB"
          ++ " -NewVHDPath 'C:/Temp/packerhv/packer-hyperv.vhdx'"
          ++ " -NewVHDSizeBytes 134217728GB -SwitchName 'sw0'\x7d") scenarioA.SwitchName
      ∧ ¬ Contains ("Invoke-Command -scriptblock \x7bNew-VM -Name 'packer-hyperv'"
          ++ " -Path 'C:/Temp/packerhv' -MemoryStartupBytes 1024MB"
          ++ " -NewVHDPath 'C:/Temp/packerhv/packer-hyperv.vhdx'"
          ++ " -NewVHDSizeBytes 134217728GB -SwitchName 'sw0'\x7d")
          (toString scenarioA.DiskSize) := by
  refine ⟨by decide, by decide, by decide, by decide, by decide, by decide⟩

/-- C4 (amended): on a state bag that holds a UI under `"ui"`, the configuration under
`"config"`, a driver under `"driver"` and a string under `"packerTempDir"`, when the
`HypervManage` call of a fresh `StepCreateVM` fails with the text `e`,
`Run` returns `ActionHalt` and leaves the step's `vmName` unset; the state bag afterwards is
the one before with only `"error"` put, its message contains `e`, the `"vmName"` key is as
it was before, and a `Cleanup` of the step afterwards has no effect at all (no driver
call). -/
theorem StepCreateVM_Run_failure (env : Env) (m : Machine) (c : config) (path e : String)
    (hui : m.state.GetOk "ui" = some Value.ui)
    (hconfig : m.state.GetOk "config" = some (Value.config c))
    (hdriver : m.state.GetOk "driver" = some Value.driver)
    (hpath : m.state.GetOk "packerTempDir" = some (Value.string path))
    (hfail : ∀ cmd, env.HypervManage (manageCalls m.trace).length cmd = some e) :
    (StepCreateVM.Run env ⟨""⟩ m).1 = Res.ret (StepAction.ActionHalt, ⟨""⟩)
      ∧ (StepCreateVM.Run env ⟨""⟩ m).2.state
          = m.state.Put "error" (Value.error ("Error creating virtual machine: " ++ e))
      ∧ (StepCreateVM.Run env ⟨""⟩ m).2.state.GetOk "error"
          = some (Value.error ("Error creating virtual machine: " ++ e))
      ∧ Contains ("Error creating virtual machine: " ++ e) e
      ∧ (StepCreateVM.Run env ⟨""⟩ m).2.state.GetOk "vmName" = m.state.GetOk "vmName"
      ∧ (manageCalls (StepCreateVM.Run env ⟨""⟩ m).2.trace).length
          = (manageCalls m.trace).length + 1
      ∧ StepCreateVM.Cleanup env ⟨""⟩ (StepCreateVM.Run env ⟨""⟩ m).2
          = (Res.ret (), (StepCreateVM.Run env ⟨""⟩ m).2) := by
  have hlen : (manageCalls (m.trace ++ [Event.say "Creating virtual machine..."])).length
      = (manageCalls m.trace).length := by
    simp [manageCalls_append, manageCalls_cons, manageCalls_nil]
  have hrun : StepCreateVM.Run env ⟨""⟩ m
      = (Res.ret (StepAction.ActionHalt, ⟨""⟩),
          { state := m.state.Put "error" (Value.error ("Error creating virtual machine: " ++ e)),
            trace := m.trace ++ [Event.say "Creating virtual machine...",
              Event.manage (StepCreateVM.Run.blockBuffer c.VMName path c.RamSizeMB
                ((c.DiskSize * 1024) % uintModulus) c.SwitchName),
              Event.uiError ("Error creating virtual machine: " ++ e)] }) := by
    simp [StepCreateVM.Run, Go_bind_apply, Go.bind, GetUi, GetDriver, GetString, GetConfig, hui,
      hdriver, hconfig, hpath, Ui.Say, Ui.Error, emit, Driver.HypervManage, hlen, hfail, Put]
    rfl
  rw [hrun]
  refine ⟨rfl, rfl, StateBag.GetOk_Put_same _ _ _, Contains_append_right _ _,
    StateBag.GetOk_Put_other _ _ _ _ (by decide), ?_, rfl⟩
  simp [manageCalls_append, manageCalls_cons, manageCalls_nil]

/-- Witness for C4 (amended): scenario A with a driver that answers "access denied". -/
theorem StepCreateVM_Run_failure_witness :
    (StepCreateVM.Run (stubManageFails "access denied") ⟨""⟩ ⟨scenarioAState, []⟩).1
        = Res.ret (StepAction.ActionHalt, ⟨""⟩)
      ∧ (StepCreateVM.Run (stubManageFails "access denied") ⟨""⟩ ⟨scenarioAState, []⟩).2.state
          = scenarioAState.Put "error"
              (Value.error ("Error creating virtual machine: " ++ "access denied"))
      ∧ (StepCreateVM.Run (stubManageFails "access denied") ⟨""⟩
            ⟨scenarioAState, []⟩).2.state.GetOk "error"
          = some (Value.error ("Error creating virtual machine: " ++ "access denied"))
      ∧ Contains ("Error creating virtual machine: " ++ "access denied") "access denied"
      ∧ (StepCreateVM.Run (stubManageFails "access denied") ⟨""⟩
            ⟨scenarioAState, []⟩).2.state.GetOk "vmName" = scenarioAState.GetOk "vmName"
      ∧ (manageCalls (StepCreateVM.Run (stubManageFails "access denied") ⟨""⟩
            ⟨scenarioAState, []⟩).2.trace).length = (manageCalls []).length + 1
      ∧ StepCreateVM.Cleanup (stubManageFails "access denied") ⟨""⟩
            (StepCreateVM.Run (stubManageFails "access denied") ⟨""⟩ ⟨scenarioAState, []⟩).2
          = (Res.ret (),
              (StepCreateVM.Run (stubManageFails "access denied") ⟨""⟩ ⟨scenarioAState, []⟩).2) :=
  StepCreateVM_Run_failure (stubManageFails "access denied") ⟨scenarioAState, []⟩ scenarioA
    "C:/Temp/packerhv" "access denied" (by decide) (by decide) (by decide) (by decide)
    (fun _ => rfl)

set_option maxRecDepth 100000 in
/-- C4 (as stated, refuted): on the state bag of scenario A without `"packerTempDir"`, a
fresh `StepCreateVM` whose driver would answer "access denied" panics in the type assertion
of the path, after `ui.Say`: no `HypervManage` call is made, no error is recorded and `Run`
does not return `ActionHalt`. -/
theorem StepCreateVM_Run_not_for_every_state :
    StepCreateVM.Run (stubManageFails "access denied") ⟨""⟩ ⟨scenarioAInitialState, []⟩
        = (Res.panic "interface conversion",
            { state := scenarioAInitialState,
              trace := [Event.say "Creating virtual machine..."] })
      ∧ (∀ s1, (StepCreateVM.Run (stubManageFails "access denied") ⟨""⟩
          ⟨scenarioAInitialState, []⟩).1 ≠ Res.ret (StepAction.ActionHalt, s1))
      ∧ manageCalls (StepCreateVM.Run (stubManageFails "access denied") ⟨""⟩
          ⟨scenarioAInitialState, []⟩).2.trace = []
      ∧ (StepCreateVM.Run (stubManageFails "access denied") ⟨""⟩
          ⟨scenarioAInitialState, []⟩).2.state.GetOk "error" = none := by
  have hrun : StepCreateVM.Run (stubManageFails "access denied") ⟨""⟩
      ⟨scenarioAInitialState, []⟩
      = (Res.panic "interface conversion",
          { state := scenarioAInitialState,
            trace := [Event.say "Creating virtual machine..."] }) := by decide
  rw [hrun]
  refine ⟨rfl, fun s1 h => ?_, by decide, by decide⟩
  simp at h

/-- C5: on a state bag without the key `"floppy_path"`, `StepMountFloppydrive.Run` returns
`ActionContinue` with the step as it was (its `floppyPath` stays unset), leaves the state
bag unchanged and only writes a log line: no driver call is made. -/
theorem StepMountFloppydrive_Run_no_floppy (env : Env) (s : StepMountFloppydrive)
    (m : Machine) (hno : m.state.GetOk "floppy_path" = none) :
    StepMountFloppydrive.Run env s m
        = (Res.ret (StepAction.ActionContinue, s),
            { state := m.state, trace := m.trace ++ [Event.log "No floppy disk, not attaching."] })
      ∧ (StepMountFloppydrive.Run env s m).2.state = m.state
      ∧ (StepMountFloppydrive.Run env s m).2.state.GetOk "error" = m.state.GetOk "error"
      ∧ manageCalls (StepMountFloppydrive.Run env s m).2.trace = manageCalls m.trace
      ∧ manageOutputCalls (StepMountFloppydrive.Run env s m).2.trace
          = manageOutputCalls m.trace
      ∧ (s.floppyPath = "" →
          ∀ s1, (StepMountFloppydrive.Run env s m).1 = Res.ret (StepAction.ActionContinue, s1) →
            s1.floppyPath = "") := by
  have hrun : StepMountFloppydrive.Run env s m
      = (Res.ret (StepAction.ActionContinue, s),
          { state := m.state,
            trace := m.trace ++ [Event.log "No floppy disk, not attaching."] }) := by
    simp [StepMountFloppydrive.Run, Go_bind_apply, Go.bind, GetOk, hno, Println, emit]
    rfl
  rw [hrun]
  refine ⟨rfl, rfl, rfl, ?_, ?_, ?_⟩
  · simp [manageCalls_append, manageCalls_cons, manageCalls_nil]
  · simp [manageOutputCalls_append, manageOutputCalls_cons, manageOutputCalls_nil]
  · intro hs s1 h1
    simp only [Res.ret.injEq, Prod.mk.injEq, true_and] at h1
    rw [← h1]
    exact hs

/-- Witness for C5: the state bag of scenario A has no `"floppy_path"`. -/
theorem StepMountFloppydrive_Run_no_floppy_witness :
    scenarioAState.GetOk "floppy_path" = none
      ∧ StepMountFloppydrive.Run (stubFalseThenTrue 0) ⟨""⟩ ⟨scenarioAState, []⟩
        = (Res.ret (StepAction.ActionContinue, ⟨""⟩),
            { state := scenarioAState,
              trace := [] ++ [Event.log "No floppy disk, not attaching."] }) :=
  ⟨by decide,
    (StepMountFloppydrive_Run_no_floppy (stubFalseThenTrue 0) ⟨""⟩ ⟨scenarioAState, []⟩
      (by decide)).1⟩

/-- C6: `Cleanup` of a `StepCreateVM` whose `vmName` is unset, of a `StepMountFloppydrive`
whose `floppyPath` is unset, and of a `StepWaitForPowerOff` returns normally on every
machine, whatever the state bag holds, and leaves state bag and trace as they were: no
driver call, no file removal, no UI output. -/
theorem Cleanup_unset_is_noop (env : Env) (m : Machine) :
    StepCreateVM.Cleanup env ⟨""⟩ m = (Res.ret (), m)
      ∧ StepMountFloppydrive.Cleanup env ⟨""⟩ m = (Res.ret (), m)
      ∧ StepWaitForPowerOff.Cleanup {} m = (Res.ret (), m) :=
  ⟨rfl, rfl, rfl⟩

/-- C7: when the driver is created and the runner returns, leaving the machine `m1`,
`Builder.Run` decides by the state bag of `m1` in this order: an error under `"error"` is
returned (whatever the sentinels say); without `"error"`, a cancelled sentinel gives
"Build was cancelled."; without both, a halted sentinel gives "Build was halted."; with
none of the three keys the result is `NewArtifact` of the output directory, and that
result is returned in no other case. -/
theorem Builder_Run_outcome_priority (b : Builder) (DebugRunner BasicRunner : Go Unit)
    (m m1 : Machine)
    (hrun : (if b.config.PackerDebug then DebugRunner else BasicRunner)
        { state := ((((⟨[]⟩ : StateBag).Put "config" (Value.config b.config)).Put "driver"
            Value.driver).Put "hook" Value.hook).Put "ui" Value.ui,
          trace := m.trace } = (Res.ret (), m1)) :
    (∀ e, m1.state.GetOk "error" = some (Value.error e) →
        Builder.Run b none DebugRunner BasicRunner m = (Res.ret (RunResult.failed e), m1))
      ∧ (m1.state.GetOk "error" = none → m1.state.GetOk StateCancelled ≠ none →
        Builder.Run b none DebugRunner BasicRunner m
          = (Res.ret (RunResult.failed "Build was cancelled."), m1))
      ∧ (m1.state.GetOk "error" = none → m1.state.GetOk StateCancelled = none →
        m1.state.GetOk StateHalted ≠ none →
        Builder.Run b none DebugRunner BasicRunner m
          = (Res.ret (RunResult.failed "Build was halted."), m1))
      ∧ ((∃ dir, (Builder.Run b none DebugRunner BasicRunner m).1
            = Res.ret (RunResult.NewArtifact dir))
          ↔ (m1.state.GetOk "error" = none ∧ m1.state.GetOk StateCancelled = none
              ∧ m1.state.GetOk StateHalted = none))
      ∧ (m1.state.GetOk "error" = none → m1.state.GetOk StateCancelled = none →
        m1.state.GetOk StateHalted = none →
        Builder.Run b none DebugRunner BasicRunner m
          = (Res.ret (RunResult.NewArtifact b.config.OutputDir), m1)) := by
  rw [Builder.Run_eq_report b DebugRunner BasicRunner m m1 hrun]
  refine ⟨fun e he => Builder.Run.report_error b m1 e he,
    fun he hc => Builder.Run.report_cancelled b m1 he hc,
    fun he hc hh => Builder.Run.report_halted b m1 he hc hh,
    ⟨fun ⟨dir, hd⟩ => Builder.Run.report_artifact_only b m1 dir hd,
      fun ⟨he, hc, hh⟩ => ⟨b.config.OutputDir, by
        rw [Builder.Run.report_artifact b m1 he hc hh]⟩⟩,
    fun he hc hh => Builder.Run.report_artifact b m1 he hc hh⟩

/-- Witness for C7: the runner leaves both an error and the halted sentinel; the error
wins. -/
theorem Builder_Run_outcome_priority_witness :
    (Builder.Run scenarioABuilder none haltingRunner haltingRunner ⟨⟨[]⟩, []⟩).1
      = Res.ret (RunResult.failed "Error creating virtual machine: access denied") :=
  congrArg Prod.fst
    ((Builder_Run_outcome_priority scenarioABuilder haltingRunner haltingRunner ⟨⟨[]⟩, []⟩
      (haltingRunner
        { state := ((((⟨[]⟩ : StateBag).Put "config" (Value.config scenarioA)).Put "driver"
            Value.driver).Put "hook" Value.hook).Put "ui" Value.ui,
          trace := [] }).2
      (by decide)).1 "Error creating virtual machine: access denied" (by decide))

/-- C8: `StepMountFloppydrive.Run` returns `ActionHalt` with an error recorded under
`"error"` and without any call of `ui.Error`, both when staging the floppy fails (the
temporary directory cannot be created) and when the mount command fails ("access
denied").  The halting paths of the two other steps are in `Run_halt_error_report`. -/
theorem StepMountFloppydrive_Run_halt_without_ui_error :
    (StepMountFloppydrive.Run (stubTempDirFails "no space left") ⟨""⟩ ⟨floppyState, []⟩
        = (Res.ret (StepAction.ActionHalt, ⟨""⟩),
            { state := floppyState.Put "error"
                (Value.error "Error preparing floppy: no space left"),
              trace := [Event.tempDir] })
      ∧ uiErrors (StepMountFloppydrive.Run (stubTempDirFails "no space left") ⟨""⟩
          ⟨floppyState, []⟩).2.trace = [])
    ∧ ((StepMountFloppydrive.Run (stubManageFails "access denied") ⟨""⟩ ⟨floppyState, []⟩).1
          = Res.ret (StepAction.ActionHalt, ⟨""⟩)
      ∧ (StepMountFloppydrive.Run (stubManageFails "access denied") ⟨""⟩
          ⟨floppyState, []⟩).2.state.GetOk "error"
          = some (Value.error "Error mounting floppy drive: access denied")
      ∧ uiErrors (StepMountFloppydrive.Run (stubManageFails "access denied") ⟨""⟩
          ⟨floppyState, []⟩).2.trace = []) := by
  refine ⟨⟨by decide, by decide⟩, by decide, by decide, by decide⟩

/-- The halting paths of the three steps, on every execution: whenever `StepCreateVM.Run`
or `StepWaitForPowerOff.Run` returns `ActionHalt`, the state bag holds an error under
`"error"` and the events the step added end with a `ui.Error` event carrying the message of
that error; whenever `StepMountFloppydrive.Run` returns `ActionHalt`, the state bag holds an
error under `"error"` and the step has added no `ui.Error` event. -/
theorem Run_halt_error_report (env : Env) :
    (∀ (s s1 : StepCreateVM) (m m1 : Machine),
        StepCreateVM.Run env s m = (Res.ret (StepAction.ActionHalt, s1), m1) →
        ∃ msg t, m1.state.GetOk "error" = some (Value.error msg)
          ∧ m1.trace = m.trace ++ t ++ [Event.uiError msg])
      ∧ (∀ (s : StepWaitForPowerOff) (fuel : Nat) (m m1 : Machine),
        StepWaitForPowerOff.Run env s fuel m = (Res.ret StepAction.ActionHalt, m1) →
        ∃ msg t, m1.state.GetOk "error" = some (Value.error msg)
          ∧ m1.trace = m.trace ++ t ++ [Event.uiError msg])
      ∧ (∀ (s s1 : StepMountFloppydrive) (m m1 : Machine),
        StepMountFloppydrive.Run env s m = (Res.ret (StepAction.ActionHalt, s1), m1) →
        (∃ msg, m1.state.GetOk "error" = some (Value.error msg))
          ∧ uiErrors m1.trace = uiErrors m.trace) :=
  ⟨fun s s1 m m1 h => StepCreateVM_Run_halt env s s1 m m1 h,
    fun s fuel m m1 h => StepWaitForPowerOff_Run_halt env s fuel m m1 h,
    fun s s1 m m1 h => StepMountFloppydrive_Run_halt env s s1 m m1 h⟩

set_option maxRecDepth 100000 in
/-- The halting path of the create step in scenario A with a driver that answers
"access denied". -/
theorem Run_halt_error_report_witness :
    ∃ msg t,
      (StepCreateVM.Run (stubManageFails "access denied") ⟨""⟩
          ⟨scenarioAState, []⟩).2.state.GetOk "error" = some (Value.error msg)
        ∧ (StepCreateVM.Run (stubManageFails "access denied") ⟨""⟩
          ⟨scenarioAState, []⟩).2.trace = [] ++ t ++ [Event.uiError msg] :=
  (Run_halt_error_report (stubManageFails "access denied")).1 ⟨""⟩ ⟨""⟩ ⟨scenarioAState, []⟩
    (StepCreateVM.Run (stubManageFails "access denied") ⟨""⟩ ⟨scenarioAState, []⟩).2
    (by decide)

/-- C9: `Cleanup` of `StepCreateVM` and of `StepMountFloppydrive` never changes the state
bag, whatever the driver answers (and also when it panics on a missing key).  With the
tracking field set and the keys it reads present, `StepCreateVM.Cleanup` returns after one
`HypervManage` call, followed by `ui.Error` exactly when the call failed; and
`StepMountFloppydrive.Cleanup` returns after the detach command, `ui.Error` if it failed,
then the removal of the staged copy (also after a failed detach) and `ui.Error` if that
failed. -/
theorem Cleanup_best_effort (env : Env) (m : Machine) :
    (∀ s : StepCreateVM, (StepCreateVM.Cleanup env s m).2.state = m.state)
      ∧ (∀ s : StepMountFloppydrive, (StepMountFloppydrive.Cleanup env s m).2.state = m.state)
      ∧ (∀ s : StepCreateVM, s.vmName ≠ "" →
          m.state.GetOk "driver" = some Value.driver → m.state.GetOk "ui" = some Value.ui →
          StepCreateVM.Cleanup env s m
            = (Res.ret (),
                { state := m.state,
                  trace := m.trace
                    ++ [Event.say "Unregistering and deleting virtual machine...",
                        Event.manage ("Invoke-Command -scriptblock \x7bRemove-VM –Name '"
                          ++ s.vmName ++ "' -Force \x7d")]
                    ++ ((env.HypervManage (manageCalls m.trace).length
                          ("Invoke-Command -scriptblock \x7bRemove-VM –Name '"
                            ++ s.vmName ++ "' -Force \x7d")).map
                        (fun e => Event.uiError ("Error deleting virtual machine: " ++ e))).toList }))
      ∧ (∀ (s : StepMountFloppydrive) (vmName : String), s.floppyPath ≠ "" →
          m.state.GetOk "vmName" = some (Value.string vmName) →
          m.state.GetOk "ui" = some Value.ui → m.state.GetOk "driver" = some Value.driver →
          StepMountFloppydrive.Cleanup env s m
            = (Res.ret (),
                { state := m.state,
                  trace := m.trace
                    ++ [Event.say "Unmounting floppy drive (cleanup)...",
                        Event.manage ("Set-VMFloppyDiskDrive -VMName " ++ vmName
                          ++ " -Path " ++ "$null")]
                    ++ ((env.HypervManage (manageCalls m.trace).length
                          ("Set-VMFloppyDiskDrive -VMName " ++ vmName ++ " -Path " ++ "$null")).map
                        (fun e => Event.uiError ("Error unmounting floppy drive: " ++ e))).toList
                    ++ [Event.remove s.floppyPath]
                    ++ ((env.Remove s.floppyPath).map
                        (fun e => Event.uiError ("Error unmounting floppy drive: " ++ e))).toList })) := by
  refine ⟨fun s => StepCreateVM_Cleanup_state env s m,
    fun s => StepMountFloppydrive_Cleanup_state env s m, ?_, ?_⟩
  · intro s hs hdriver hui
    have hlen : (manageCalls (m.trace
        ++ [Event.say "Unregistering and deleting virtual machine..."])).length
        = (manageCalls m.trace).length := by
      simp [manageCalls_append, manageCalls_cons, manageCalls_nil]
    rcases herr : env.HypervManage (manageCalls m.trace).length
        ("Invoke-Command -scriptblock \x7bRemove-VM –Name '" ++ s.vmName ++ "' -Force \x7d")
      with _ | e <;>
      simp [StepCreateVM.Cleanup, hs, Go_bind_apply, Go.bind, GetDriver, GetUi, hdriver, hui,
        Ui.Say, Ui.Error, emit, Driver.HypervManage, hlen, herr, Go_pure_apply]
  · intro s vmName hs hvm hui hdriver
    have hlen : (manageCalls (m.trace
        ++ [Event.say "Unmounting floppy drive (cleanup)..."])).length
        = (manageCalls m.trace).length := by
      simp [manageCalls_append, manageCalls_cons, manageCalls_nil]
    rcases herr : env.HypervManage (manageCalls m.trace).length
        ("Set-VMFloppyDiskDrive -VMName " ++ vmName ++ " -Path " ++ "$null") with _ | e <;>
      rcases hrm : env.Remove s.floppyPath with _ | e2 <;>
      simp [StepMountFloppydrive.Cleanup, hs, Go_bind_apply, Go.bind, GetDriver, GetUi,
        GetString, hdriver, hui, hvm, Ui.Say, Ui.Error, emit, Driver.HypervManage, hlen, herr,
        hrm, Go_pure_apply, unmountFloppyDrive, mountFloppyDrive, Remove]

/-- Witness for C9: the detach command and the removal both fail; the removal is still
attempted and the state bag is as before. -/
theorem Cleanup_best_effort_witness :
    StepMountFloppydrive.Cleanup (stubCleanupFails "access denied" "file in use")
        ⟨"/tmp/packer/floppy.vfd"⟩ ⟨floppyState, []⟩
      = (Res.ret (),
          { state := floppyState,
            trace := [] ++ [Event.say "Unmounting floppy drive (cleanup)...",
                Event.manage ("Set-VMFloppyDiskDrive -VMName " ++ "vm" ++ " -Path " ++ "$null")]
              ++ (((stubCleanupFails "access denied" "file in use").HypervManage
                    (manageCalls []).length
                    ("Set-VMFloppyDiskDrive -VMName " ++ "vm" ++ " -Path " ++ "$null")).map
                  (fun e => Event.uiError ("Error unmounting floppy drive: " ++ e))).toList
              ++ [Event.remove "/tmp/packer/floppy.vfd"]
              ++ (((stubCleanupFails "access denied" "file in use").Remove
                    "/tmp/packer/floppy.vfd").map
                  (fun e => Event.uiError ("Error unmounting floppy drive: " ++ e))).toList }) :=
  (Cleanup_best_effort (stubCleanupFails "access denied" "file in use")
    ⟨floppyState, []⟩).2.2.2 ⟨"/tmp/packer/floppy.vfd"⟩ "vm" (by decide) (by decide)
    (by decide) (by decide)

/-- C10: the disk-type check of `Builder.Prepare` appends its error for every disk type:
the condition `DiskType != "Dynamic" || DiskType != "Fixed"` holds for every string, so the
error is also appended for `"Dynamic"`, `"Fixed"` and the empty (defaulted) disk type. -/
theorem Builder_Prepare_DiskType_always_rejects :
    (∀ (c : config) (errs : List String),
        (Builder.Prepare.DiskType c errs).2
          = errs ++ ["disk_type: " ++ (Builder.Prepare.DiskType c errs).1.DiskType
              ++ ", invalid disk type, must be " ++ DiskTypeDynamic ++ " or " ++ DiskTypeFixed])
      ∧ Builder.Prepare.DiskType { scenarioA with DiskType := "Dynamic" } []
          = ({ scenarioA with DiskType := "Dynamic" },
              ["disk_type: Dynamic, invalid disk type, must be Dynamic or Fixed"])
      ∧ Builder.Prepare.DiskType { scenarioA with DiskType := "Fixed" } []
          = ({ scenarioA with DiskType := "Fixed" },
              ["disk_type: Fixed, invalid disk type, must be Dynamic or Fixed"])
      ∧ Builder.Prepare.DiskType { scenarioA with DiskType := "" } []
          = ({ scenarioA with DiskType := "Dynamic" },
              ["disk_type: Dynamic, invalid disk type, must be Dynamic or Fixed"]) := by
  refine ⟨?_, by decide, by decide, by decide⟩
  intro c errs
  have hcond : ∀ t : String, t ≠ DiskTypeDynamic ∨ t ≠ DiskTypeFixed := by
    intro t
    by_cases h : t = DiskTypeDynamic
    · right
      rw [h]
      decide
    · left
      exact h
  simp only [Builder.Prepare.DiskType, hcond, if_true]

/-- C11: `Builder.checkHostAvailableMemory` returns the low-memory warning whenever the
free-memory query succeeds and its output parses, whatever the parsed amount `freeMB` and
the configured `RamSizeMB` are: the condition `err == nil || freeMB - RamSizeMB < LowRam`
holds as soon as the parse succeeds.  In particular with 8192 MB free and 1024 MB
configured (7168 left, above `LowRam`) the warning is returned, not the empty string. -/
theorem Builder_checkHostAvailableMemory_warns_when_parsed :
    (∀ (out : String) (freeMB : Float) (b : Builder) (m : Machine),
        Builder.checkHostAvailableMemory (stubOutput out) (stubParses freeMB) b m
          = (Res.ret
              "Hyper-V might fail to create a VM if there is not enough free memory in the system.",
              { m with trace := m.trace ++ [Event.manageOutput
                "(Get-WmiObject Win32_OperatingSystem).FreePhysicalMemory / 1024"] }))
      ∧ (Builder.checkHostAvailableMemory (stubOutput "8192") (stubParses 8192) scenarioABuilder
          ⟨scenarioAState, []⟩).1
          = Res.ret
              "Hyper-V might fail to create a VM if there is not enough free memory in the system."
      ∧ scenarioABuilder.config.RamSizeMB = 1024 := by
  refine ⟨fun out freeMB b m => ?_, ?_, rfl⟩
  · simp [Builder.checkHostAvailableMemory, getHostAvailableMemory, Go_bind_apply, Go.bind,
      Driver.HypervManageOutput, stubOutput, stubParses, Go_pure_apply]
  · simp [Builder.checkHostAvailableMemory, getHostAvailableMemory, Go_bind_apply, Go.bind,
      Driver.HypervManageOutput, stubOutput, stubParses, Go_pure_apply]

end Hyperv
